import Mathlib

/-!
Verification of the emulator control-and-telemetry bridge of the
bizkut/eden-fft-agent repository: a shallow embedding of the byte-level
protocol code in `cemuhook_server.py`, `memory_reader.py` and
`power_manager.py`, together with theorems settling the specified
properties of that code.

Conventions of the embedding:
* a Python `bytes` value is a `List Nat` whose entries are byte values;
* Python machine-width packing (`struct.pack`) is modelled with explicit
  range guards returning `Option`, since `struct.pack` raises on
  out-of-range arguments;
* fallible Python code returns `Option`/`Except`;
* the network is abstracted as an oracle function passed explicitly.
-/

set_option maxRecDepth 4000

/-! ## Little-endian byte packing (models `struct.pack` / `int.from_bytes`) -/

/-- The `w` little-endian bytes of `v` (low byte first), as produced by
`struct.pack` for an in-range fixed-width little-endian integer field. -/
def leBytes : Nat → Nat → List Nat
  | 0, _ => []
  | w + 1, v => v % 256 :: leBytes w (v / 256)

/-- The integer denoted by a little-endian byte list, as computed by
`struct.unpack` / `int.from_bytes(..., byteorder='little')`. -/
def leValue : List Nat → Nat
  | [] => 0
  | b :: bs => b + 256 * leValue bs

/-- `struct.pack` of one fixed-width little-endian unsigned field:
raises (`none`) when the value is out of range for the width. -/
def packUint (w v : Nat) : Option (List Nat) :=
  if v < 2 ^ (8 * w) then some (leBytes w v) else none

/-- `struct.pack_into(fmt, buf, off, v)`: overwrite the bytes of `msg`
starting at offset `off` with `rep`. -/
def packInto (msg : List Nat) (off : Nat) (rep : List Nat) : List Nat :=
  msg.take off ++ rep ++ msg.drop (off + rep.length)

theorem leBytes_length (w v : Nat) : (leBytes w v).length = w := by
  induction w generalizing v with
  | zero => rfl
  | succ w ih => simp [leBytes, ih]

theorem leValue_leBytes (w v : Nat) : leValue (leBytes w v) = v % 2 ^ (8 * w) := by
  induction w generalizing v with
  | zero => simp [leBytes, leValue, Nat.mod_one]
  | succ w ih =>
    have h : 2 ^ (8 * (w + 1)) = 256 * 2 ^ (8 * w) := by
      rw [Nat.mul_succ, Nat.pow_add]; ring
    rw [leBytes, leValue, ih, h, Nat.mod_mul]

theorem leBytes_one (v : Nat) (h : v < 256) : leBytes 1 v = [v] := by
  simp [leBytes, Nat.mod_eq_of_lt h]

theorem packUint_eq (w v : Nat) (h : v < 2 ^ (8 * w)) :
    packUint w v = some (leBytes w v) := by
  simp [packUint, h]

/-- Overwriting the bytes of the middle block of a three-block message
replaces exactly that block. -/
theorem packInto_mid (A B C rep : List Nat) (hB : B.length = rep.length) :
    packInto (A ++ B ++ C) A.length rep = A ++ rep ++ C := by
  unfold packInto
  have h1 : (A ++ B ++ C).take A.length = A := by
    rw [List.append_assoc]; exact List.take_left A (B ++ C)
  have h2 : (A ++ B ++ C).drop (A.length + rep.length) = C := by
    apply List.drop_left'
    rw [List.length_append, hB]
  rw [h1, h2]

/-! ## Protocol constants (`cemuhook_server.py`, lines 17-25, 91) -/

def SERVER_MAGIC : Nat := 0x53555344
def CLIENT_MAGIC : Nat := 0x43555344
def PROTOCOL_VERSION : Nat := 1001
def TYPE_VERSION : Nat := 0x00100000
def TYPE_PORTINFO : Nat := 0x00100001
def TYPE_PADDATA : Nat := 0x00100002
/-- `self.server_id` assigned in `CemuhookServer.__init__`. -/
def SERVER_ID : Nat := 0x12345678

/-! ## CRC-32 (`zlib.crc32`, used by `CemuhookServer._compute_crc32`) -/

def CRC_POLY : Nat := 0xEDB88320

/-- `n` reflected CRC-32 bit steps over the running remainder. -/
def crc32_bits : Nat → Nat → Nat
  | 0, c => c
  | n + 1, c => crc32_bits n (if c % 2 = 1 then Nat.xor (c / 2) CRC_POLY else c / 2)

def crc32_aux : Nat → List Nat → Nat
  | c, [] => c
  | c, b :: bs => crc32_aux (crc32_bits 8 (Nat.xor c b)) bs

/-- `zlib.crc32(data)`: reflected CRC-32, initial value and final xor
`0xFFFFFFFF`. -/
def zlib_crc32 (data : List Nat) : Nat :=
  Nat.xor (crc32_aux 0xFFFFFFFF data) 0xFFFFFFFF

/-- `CemuhookServer._compute_crc32`: `zlib.crc32(data) & 0xFFFFFFFF`. -/
def compute_crc32 (data : List Nat) : Nat :=
  Nat.land (zlib_crc32 data) 0xFFFFFFFF

/-! ## DSU header and packet codec (`cemuhook_server.py`, lines 97-108) -/

/-- `CemuhookServer._build_header`: the 20-byte DSU header
`struct.pack('<IHHIII', SERVER_MAGIC, PROTOCOL_VERSION, payload_len, 0,
server_id, msg_type)`.  The server identifier is a constructor argument in
the source (`self.server_id`); it is passed explicitly here. -/
def build_header (msg_type payload_len server_id : Nat) : Option (List Nat) := do
  let m ← packUint 4 SERVER_MAGIC
  let v ← packUint 2 PROTOCOL_VERSION
  let l ← packUint 2 payload_len
  let c ← packUint 4 0
  let s ← packUint 4 server_id
  let t ← packUint 4 msg_type
  pure (m ++ v ++ l ++ c ++ s ++ t)

/-- The message-building pattern shared by `_build_pad_data`,
`_build_version_response` and `_build_portinfo_response`: build the header
with `payload_len = len(payload) + 4` and a zero checksum placeholder,
append the payload, compute the CRC-32 over the whole buffer and patch it
in at byte offset 8 (`struct.pack_into('<I', message, 8, crc)`).  This is
the spec's `encodeGamepadPacket(messageType, serverId, payload)`. -/
def encodeGamepadPacket (msg_type server_id : Nat) (payload : List Nat) :
    Option (List Nat) := do
  let header ← build_header msg_type (payload.length + 4) server_id
  let msg := header ++ payload
  pure (packInto msg 8 (leBytes 4 (compute_crc32 msg)))

/-- `CemuhookServer._parse_request` (the spec's `decodeGamepadRequest`):
reject datagrams shorter than 20 bytes, unpack the header
`struct.unpack('<IHHIII', data[:20])`, reject a magic different from
`CLIENT_MAGIC`, and return the message type (bytes 16..19). -/
def parse_request (data : List Nat) : Option Nat :=
  if data.length < 20 then none
  else if leValue (data.take 4) ≠ CLIENT_MAGIC then none
  else some (leValue ((data.drop 16).take 4))

/-- Normal form of `build_header` when every field is in range. -/
theorem build_header_eq (mt pl sid : Nat)
    (hmt : mt < 2 ^ 32) (hpl : pl < 2 ^ 16) (hsid : sid < 2 ^ 32) :
    build_header mt pl sid =
      some (leBytes 4 SERVER_MAGIC ++ leBytes 2 PROTOCOL_VERSION ++
            leBytes 2 pl ++ leBytes 4 0 ++ leBytes 4 sid ++ leBytes 4 mt) := by
  have h1 : SERVER_MAGIC < 2 ^ (8 * 4) := by norm_num [SERVER_MAGIC]
  have h2 : PROTOCOL_VERSION < 2 ^ (8 * 2) := by norm_num [PROTOCOL_VERSION]
  have h3 : pl < 2 ^ (8 * 2) := by simpa using hpl
  have h4 : (0 : Nat) < 2 ^ (8 * 4) := by norm_num
  have h5 : sid < 2 ^ (8 * 4) := by simpa using hsid
  have h6 : mt < 2 ^ (8 * 4) := by simpa using hmt
  simp [build_header, packUint_eq _ _ h1, packUint_eq _ _ h2, packUint_eq _ _ h3,
        packUint_eq _ _ h4, packUint_eq _ _ h5, packUint_eq _ _ h6]

/-- Overwriting a 4-byte block at offset `n` (the length of the block
before it) with 4 fresh bytes replaces exactly that block. -/
theorem packInto_leBytes4 (A B C : List Nat) (n v : Nat)
    (hA : A.length = n) (hB : B.length = 4) :
    packInto (A ++ B ++ C) n (leBytes 4 v) = A ++ leBytes 4 v ++ C := by
  subst hA
  exact packInto_mid A B C _ (by rw [hB, leBytes_length])

/-- Normal form of `encodeGamepadPacket`: the emitted packet is the
20-byte header (server magic, version, length, patched CRC, server id,
message type) followed by the payload. -/
theorem encodeGamepadPacket_eq (mt sid : Nat) (p : List Nat)
    (hmt : mt < 2 ^ 32) (hsid : sid < 2 ^ 32) (hp : p.length + 4 < 2 ^ 16) :
    ∃ crc : Nat, encodeGamepadPacket mt sid p =
      some ((leBytes 4 SERVER_MAGIC ++ leBytes 2 PROTOCOL_VERSION ++
             leBytes 2 (p.length + 4)) ++ leBytes 4 crc ++
            (leBytes 4 sid ++ (leBytes 4 mt ++ p))) := by
  have hh := build_header_eq mt (p.length + 4) sid hmt hp hsid
  refine ⟨?_, ?_⟩
  · exact compute_crc32 ((leBytes 4 SERVER_MAGIC ++ leBytes 2 PROTOCOL_VERSION ++
      leBytes 2 (p.length + 4)) ++ leBytes 4 0 ++ (leBytes 4 sid ++ (leBytes 4 mt ++ p)))
  · unfold encodeGamepadPacket
    rw [hh]
    simp only [Option.bind_eq_bind, Option.some_bind, Option.pure_def]
    have hre : leBytes 4 SERVER_MAGIC ++ leBytes 2 PROTOCOL_VERSION ++
        leBytes 2 (p.length + 4) ++ leBytes 4 0 ++ leBytes 4 sid ++ leBytes 4 mt ++ p =
        (leBytes 4 SERVER_MAGIC ++ leBytes 2 PROTOCOL_VERSION ++ leBytes 2 (p.length + 4)) ++
          leBytes 4 0 ++ (leBytes 4 sid ++ (leBytes 4 mt ++ p)) := by
      simp [List.append_assoc]
    rw [hre]
    rw [packInto_leBytes4
      (leBytes 4 SERVER_MAGIC ++ leBytes 2 PROTOCOL_VERSION ++ leBytes 2 (p.length + 4))
      (leBytes 4 0) (leBytes 4 sid ++ (leBytes 4 mt ++ p)) 8 _
      (by simp [leBytes_length]) (leBytes_length 4 0)]

/-- `parse_request` on a well-shaped 20-byte-headed packet: accepts exactly
the client magic and returns the little-endian message-type field. -/
theorem parse_request_structured (m t : Nat) (mid p : List Nat)
    (hm : m < 2 ^ 32) (ht : t < 2 ^ 32) (hmid : mid.length = 12) :
    parse_request (leBytes 4 m ++ mid ++ (leBytes 4 t ++ p)) =
      if m = CLIENT_MAGIC then some t else none := by
  have hlen : (leBytes 4 m ++ mid ++ (leBytes 4 t ++ p)).length = 20 + p.length := by
    simp [leBytes_length, hmid]; omega
  have htake : (leBytes 4 m ++ mid ++ (leBytes 4 t ++ p)).take 4 = leBytes 4 m := by
    rw [List.append_assoc]
    exact List.take_left' (leBytes_length 4 m)
  have hdrop : (leBytes 4 m ++ mid ++ (leBytes 4 t ++ p)).drop 16 = leBytes 4 t ++ p :=
    List.drop_left' (by simp [leBytes_length, hmid])
  have htake2 : (leBytes 4 t ++ p).take 4 = leBytes 4 t :=
    List.take_left' (leBytes_length 4 t)
  have hmagic : leValue ((leBytes 4 m ++ mid ++ (leBytes 4 t ++ p)).take 4) = m := by
    rw [htake, leValue_leBytes]
    exact Nat.mod_eq_of_lt (by simpa using hm)
  have htype : leValue (((leBytes 4 m ++ mid ++ (leBytes 4 t ++ p)).drop 16).take 4) = t := by
    rw [hdrop, htake2, leValue_leBytes]
    exact Nat.mod_eq_of_lt (by simpa using ht)
  unfold parse_request
  rw [if_neg (by omega), hmagic, htype]
  by_cases hc : m = CLIENT_MAGIC
  · rw [if_neg (by simpa using hc), if_pos hc]
  · rw [if_pos (by simpa using hc), if_neg hc]

/-- The spec's round trip `decodeGamepadRequest(encodeGamepadPacket(...))`
returns `none` for every in-range message type, server identifier and
payload: the encoder writes `SERVER_MAGIC` into the header while the
decoder accepts only `CLIENT_MAGIC`. -/
theorem roundTrip_none (mt sid : Nat) (p : List Nat)
    (hmt : mt < 2 ^ 32) (hsid : sid < 2 ^ 32) (hp : p.length + 4 < 2 ^ 16) :
    (encodeGamepadPacket mt sid p).bind parse_request = none := by
  obtain ⟨crc, henc⟩ := encodeGamepadPacket_eq mt sid p hmt hsid hp
  rw [henc, Option.some_bind]
  have hshape :
      (leBytes 4 SERVER_MAGIC ++ leBytes 2 PROTOCOL_VERSION ++ leBytes 2 (p.length + 4)) ++
        leBytes 4 crc ++ (leBytes 4 sid ++ (leBytes 4 mt ++ p)) =
      leBytes 4 SERVER_MAGIC ++
        (leBytes 2 PROTOCOL_VERSION ++ leBytes 2 (p.length + 4) ++ leBytes 4 crc ++
         leBytes 4 sid) ++ (leBytes 4 mt ++ p) := by
    simp [List.append_assoc]
  rw [hshape, parse_request_structured SERVER_MAGIC mt _ p
      (by norm_num [SERVER_MAGIC]) hmt (by simp [leBytes_length])]
  rw [if_neg (by norm_num [SERVER_MAGIC, CLIENT_MAGIC])]

/-- Overwriting the first four bytes of a message whose leading block has
four bytes replaces exactly that block. -/
theorem packInto_zero4 (A C : List Nat) (v : Nat) (hA : A.length = 4) :
    packInto (A ++ C) 0 (leBytes 4 v) = leBytes 4 v ++ C := by
  unfold packInto
  rw [List.take_zero, List.nil_append, leBytes_length, Nat.zero_add,
      List.drop_left' hA]

/-- Claim C1 (amended): for every in-range message type, server id and
payload, the encoder produces a packet that `parse_request` rejects
(`none`), because the encoder writes the server magic while the decoder
accepts only the client magic; decoding recovers the original message type
exactly once the 4-byte magic field is replaced with `CLIENT_MAGIC`. -/
theorem c1_roundtrip_magic (mt sid : Nat) (p : List Nat)
    (hmt : mt < 2 ^ 32) (hsid : sid < 2 ^ 32) (hp : p.length + 4 < 2 ^ 16) :
    ∃ msg : List Nat, encodeGamepadPacket mt sid p = some msg ∧
      parse_request msg = none ∧
      parse_request (packInto msg 0 (leBytes 4 CLIENT_MAGIC)) = some mt := by
  obtain ⟨crc, henc⟩ := encodeGamepadPacket_eq mt sid p hmt hsid hp
  refine ⟨_, henc, ?_, ?_⟩
  · have hshape :
        (leBytes 4 SERVER_MAGIC ++ leBytes 2 PROTOCOL_VERSION ++ leBytes 2 (p.length + 4)) ++
          leBytes 4 crc ++ (leBytes 4 sid ++ (leBytes 4 mt ++ p)) =
        leBytes 4 SERVER_MAGIC ++
          (leBytes 2 PROTOCOL_VERSION ++ leBytes 2 (p.length + 4) ++ leBytes 4 crc ++
           leBytes 4 sid) ++ (leBytes 4 mt ++ p) := by
      simp [List.append_assoc]
    rw [hshape, parse_request_structured SERVER_MAGIC mt _ p
        (by norm_num [SERVER_MAGIC]) hmt (by simp [leBytes_length])]
    rw [if_neg (by norm_num [SERVER_MAGIC, CLIENT_MAGIC])]
  · have hshape :
        (leBytes 4 SERVER_MAGIC ++ leBytes 2 PROTOCOL_VERSION ++ leBytes 2 (p.length + 4)) ++
          leBytes 4 crc ++ (leBytes 4 sid ++ (leBytes 4 mt ++ p)) =
        leBytes 4 SERVER_MAGIC ++
          ((leBytes 2 PROTOCOL_VERSION ++ leBytes 2 (p.length + 4) ++ leBytes 4 crc ++
            leBytes 4 sid) ++ (leBytes 4 mt ++ p)) := by
      simp [List.append_assoc]
    rw [hshape, packInto_zero4 _ _ _ (leBytes_length 4 SERVER_MAGIC)]
    have hshape2 :
        leBytes 4 CLIENT_MAGIC ++
          ((leBytes 2 PROTOCOL_VERSION ++ leBytes 2 (p.length + 4) ++ leBytes 4 crc ++
            leBytes 4 sid) ++ (leBytes 4 mt ++ p)) =
        leBytes 4 CLIENT_MAGIC ++
          (leBytes 2 PROTOCOL_VERSION ++ leBytes 2 (p.length + 4) ++ leBytes 4 crc ++
           leBytes 4 sid) ++ (leBytes 4 mt ++ p) := by
      simp [List.append_assoc]
    rw [hshape2, parse_request_structured CLIENT_MAGIC mt _ p
        (by norm_num [CLIENT_MAGIC]) hmt (by simp [leBytes_length])]
    rw [if_pos rfl]

/-- Claim C1 witness: the amended round trip at a concrete input — a
version-request message type, the source's server id and an empty
payload. -/
theorem c1_roundtrip_magic_witness :
    ∃ msg : List Nat, encodeGamepadPacket TYPE_VERSION SERVER_ID [] = some msg ∧
      parse_request msg = none ∧
      parse_request (packInto msg 0 (leBytes 4 CLIENT_MAGIC)) = some TYPE_VERSION :=
  c1_roundtrip_magic TYPE_VERSION SERVER_ID []
    (by norm_num [TYPE_VERSION]) (by norm_num [SERVER_ID]) (by norm_num)

/-- Claim C1 counterexample: at the concrete valid input
`(TYPE_VERSION, SERVER_ID, [])` the round trip
`decodeGamepadRequest(encodeGamepadPacket(...))` is `none`, not
`some TYPE_VERSION` as the claim states. -/
theorem c1_counterexample :
    (encodeGamepadPacket TYPE_VERSION SERVER_ID []).bind parse_request = none ∧
    (encodeGamepadPacket TYPE_VERSION SERVER_ID []).bind parse_request ≠
      some TYPE_VERSION := by
  have h := roundTrip_none TYPE_VERSION SERVER_ID []
    (by norm_num [TYPE_VERSION]) (by norm_num [SERVER_ID]) (by norm_num)
  exact ⟨h, by rw [h]; exact fun hne => Option.noConfusion hne⟩

/-- Claim C10: `parse_request` validates only the length and the magic —
every datagram of at least 20 bytes whose first four little-endian bytes
denote the client magic is accepted, and the result is the message-type
field at offset 16, regardless of the version, payload-length and
checksum header fields (inbound checksums are never recomputed). -/
theorem c10_parse_request_only_length_and_magic (data : List Nat)
    (hlen : 20 ≤ data.length) (hmagic : leValue (data.take 4) = CLIENT_MAGIC) :
    parse_request data = some (leValue ((data.drop 16).take 4)) := by
  unfold parse_request
  rw [if_neg (by omega), hmagic, if_neg (by simp)]

/-- Claim C10 witness: a concrete 20-byte datagram carrying the client
magic, a pad-data message type and a deliberately wrong CRC-32 checksum
field (`AB AB AB AB`) is still accepted and yields the message type. -/
theorem c10_witness :
    parse_request [0x44, 0x53, 0x55, 0x43, 0xE9, 0x03, 0x06, 0x00,
                   0xAB, 0xAB, 0xAB, 0xAB, 0x00, 0x00, 0x00, 0x00,
                   0x02, 0x00, 0x10, 0x00] = some TYPE_PADDATA := by
  rw [c10_parse_request_only_length_and_magic _ (by decide) (by decide)]
  decide

/-! ## Controller state and pad-data snapshots
(`cemuhook_server.py`, lines 28-36 and 110-170) -/

/-- `ControllerState` dataclass: buttons bitfield, four stick axes
centred at 128, and the packet counter. -/
structure ControllerState where
  buttons : Nat := 0
  left_stick_x : Nat := 128
  left_stick_y : Nat := 128
  right_stick_x : Nat := 128
  right_stick_y : Nat := 128
  packet_counter : Nat := 0
deriving DecidableEq

/-- `CemuhookServer._build_port_info`:
`struct.pack('<BBBB6sBB', 0, 2, 3, 1, b'\x00'*6, 5, 1)` — pad id,
connected state, generic model, USB connection, 6-byte MAC placeholder,
full battery, active flag. -/
def build_port_info : Option (List Nat) := do
  let pid ← packUint 1 0
  let st ← packUint 1 2
  let model ← packUint 1 3
  let conn ← packUint 1 1
  let mac := List.replicate 6 0
  let bat ← packUint 1 5
  let act ← packUint 1 1
  pure (pid ++ st ++ model ++ conn ++ mac ++ bat ++ act)

/-- The 80-byte pad-data payload built inside
`CemuhookServer._build_pad_data` (lines 127-157), the spec's
`buildPadDataPayload(controllerState, timestampMicros)`: port info, packet
counter, button bitfield, home and touch-hard-press bytes, four stick
bytes, 12 zero analog-button bytes, 12 zero touch bytes, the 8-byte
microsecond timestamp, and the accelerometer and gyroscope blocks
(`struct.pack('<fff', 0.0, 0.0, 0.0)`, twelve zero bytes each, since the
IEEE-754 encoding of 0.0 is four zero bytes). -/
def build_pad_data_payload (st : ControllerState) (t : Nat) : Option (List Nat) := do
  let port_info ← build_port_info
  let pc ← packUint 4 st.packet_counter
  let btn ← packUint 2 st.buttons
  let home ← packUint 1 0
  let tph ← packUint 1 0
  let lx ← packUint 1 st.left_stick_x
  let ly ← packUint 1 st.left_stick_y
  let rx ← packUint 1 st.right_stick_x
  let ry ← packUint 1 st.right_stick_y
  let ts ← packUint 8 t
  pure (port_info ++ pc ++ btn ++ home ++ tph ++ lx ++ ly ++ rx ++ ry ++
        List.replicate 12 0 ++ List.replicate 12 0 ++ ts ++
        List.replicate 12 0 ++ List.replicate 12 0)

/-- `CemuhookServer._build_pad_data`: increment the packet counter, build
the 80-byte payload (the source asserts its length), build the header with
`payload_len = len(payload) + 4`, patch the CRC-32 in at offset 8, and
return the complete message together with the updated controller state.
A `struct.error` or a failing length assertion is `none`. -/
def build_pad_data (st : ControllerState) (t : Nat) :
    Option (List Nat × ControllerState) := do
  let st2 := { st with packet_counter := st.packet_counter + 1 }
  let payload ← build_pad_data_payload st2 t
  if payload.length = 80 then do
    let header ← build_header TYPE_PADDATA (payload.length + 4) SERVER_ID
    let msg := header ++ payload
    pure (packInto msg 8 (leBytes 4 (compute_crc32 msg)), st2)
  else none

/-- Normal form of the pad-data payload when every controller-state field
is in range for its wire width. -/
theorem build_pad_data_payload_eq (st : ControllerState) (t : Nat)
    (hb : st.buttons < 2 ^ 16) (hlx : st.left_stick_x < 256)
    (hly : st.left_stick_y < 256) (hrx : st.right_stick_x < 256)
    (hry : st.right_stick_y < 256) (hc : st.packet_counter < 2 ^ 32)
    (ht : t < 2 ^ 64) :
    build_pad_data_payload st t =
      some ([0, 2, 3, 1, 0, 0, 0, 0, 0, 0, 5, 1] ++
            leBytes 4 st.packet_counter ++ leBytes 2 st.buttons ++ [0, 0] ++
            [st.left_stick_x, st.left_stick_y, st.right_stick_x, st.right_stick_y] ++
            List.replicate 12 0 ++ List.replicate 12 0 ++ leBytes 8 t ++
            List.replicate 12 0 ++ List.replicate 12 0) := by
  have h0 : build_port_info = some [0, 2, 3, 1, 0, 0, 0, 0, 0, 0, 5, 1] := rfl
  unfold build_pad_data_payload
  rw [h0, packUint_eq 4 st.packet_counter (by simpa using hc),
      packUint_eq 2 st.buttons (by simpa using hb),
      packUint_eq 1 0 (by norm_num),
      packUint_eq 1 st.left_stick_x (by simpa using hlx),
      packUint_eq 1 st.left_stick_y (by simpa using hly),
      packUint_eq 1 st.right_stick_x (by simpa using hrx),
      packUint_eq 1 st.right_stick_y (by simpa using hry),
      packUint_eq 8 t (by simpa using ht)]
  simp only [Option.bind_eq_bind, Option.some_bind, Option.pure_def]
  rw [leBytes_one 0 (by norm_num), leBytes_one st.left_stick_x hlx,
      leBytes_one st.left_stick_y hly, leBytes_one st.right_stick_x hrx,
      leBytes_one st.right_stick_y hry]
  simp [List.append_assoc]

/-- Claim C6: for every controller state whose fields are in range for
their wire widths, the pad-data payload builds successfully, is exactly
80 bytes, and has the fixed layout: 12 bytes of port-info metadata, the
4-byte packet counter, the 2-byte button bitfield, 2 reserved bytes,
4 stick bytes, 12 zero bytes, 12 zero bytes, the 8-byte microsecond
timestamp, and two further 12-byte zero-filled blocks. -/
theorem c6_pad_data_payload_layout (st : ControllerState) (t : Nat)
    (hb : st.buttons < 2 ^ 16) (hlx : st.left_stick_x < 256)
    (hly : st.left_stick_y < 256) (hrx : st.right_stick_x < 256)
    (hry : st.right_stick_y < 256) (hc : st.packet_counter < 2 ^ 32)
    (ht : t < 2 ^ 64) :
    ∃ p : List Nat, build_pad_data_payload st t = some p ∧ p.length = 80 ∧
      p = [0, 2, 3, 1, 0, 0, 0, 0, 0, 0, 5, 1] ++
          leBytes 4 st.packet_counter ++ leBytes 2 st.buttons ++ [0, 0] ++
          [st.left_stick_x, st.left_stick_y, st.right_stick_x, st.right_stick_y] ++
          List.replicate 12 0 ++ List.replicate 12 0 ++ leBytes 8 t ++
          List.replicate 12 0 ++ List.replicate 12 0 :=
  ⟨_, build_pad_data_payload_eq st t hb hlx hly hrx hry hc ht,
   by simp [leBytes_length], rfl⟩

/-- Claim C6 witness: the all-neutral default controller state at
timestamp 0 builds an 80-byte payload with the stated layout. -/
theorem c6_witness :
    ∃ p : List Nat,
      build_pad_data_payload ({} : ControllerState) 0 = some p ∧ p.length = 80 ∧
      p = [0, 2, 3, 1, 0, 0, 0, 0, 0, 0, 5, 1] ++
          leBytes 4 ({} : ControllerState).packet_counter ++
          leBytes 2 ({} : ControllerState).buttons ++ [0, 0] ++
          [({} : ControllerState).left_stick_x, ({} : ControllerState).left_stick_y,
           ({} : ControllerState).right_stick_x, ({} : ControllerState).right_stick_y] ++
          List.replicate 12 0 ++ List.replicate 12 0 ++ leBytes 8 0 ++
          List.replicate 12 0 ++ List.replicate 12 0 :=
  c6_pad_data_payload_layout {} 0 (by decide) (by decide) (by decide) (by decide)
    (by decide) (by decide) (by decide)

/-- Normal form of `build_pad_data` when the post-increment state is in
range: the 100-byte message with patched CRC, paired with the state whose
packet counter was incremented by one. -/
theorem build_pad_data_eq (st : ControllerState) (t : Nat)
    (hb : st.buttons < 2 ^ 16) (hlx : st.left_stick_x < 256)
    (hly : st.left_stick_y < 256) (hrx : st.right_stick_x < 256)
    (hry : st.right_stick_y < 256) (hc : st.packet_counter + 1 < 2 ^ 32)
    (ht : t < 2 ^ 64) :
    ∃ crc : Nat, build_pad_data st t =
      some ((leBytes 4 SERVER_MAGIC ++ leBytes 2 PROTOCOL_VERSION ++ leBytes 2 (80 + 4)) ++
            leBytes 4 crc ++
            (leBytes 4 SERVER_ID ++ (leBytes 4 TYPE_PADDATA ++
             ([0, 2, 3, 1, 0, 0, 0, 0, 0, 0, 5, 1] ++
              leBytes 4 (st.packet_counter + 1) ++ leBytes 2 st.buttons ++ [0, 0] ++
              [st.left_stick_x, st.left_stick_y, st.right_stick_x, st.right_stick_y] ++
              List.replicate 12 0 ++ List.replicate 12 0 ++ leBytes 8 t ++
              List.replicate 12 0 ++ List.replicate 12 0))),
            { st with packet_counter := st.packet_counter + 1 }) := by
  have hpay := build_pad_data_payload_eq
    { st with packet_counter := st.packet_counter + 1 } t hb hlx hly hrx hry hc ht
  have hlen80 : ([0, 2, 3, 1, 0, 0, 0, 0, 0, 0, 5, 1] ++
      leBytes 4 (st.packet_counter + 1) ++ leBytes 2 st.buttons ++ [0, 0] ++
      [st.left_stick_x, st.left_stick_y, st.right_stick_x, st.right_stick_y] ++
      List.replicate 12 0 ++ List.replicate 12 0 ++ leBytes 8 t ++
      List.replicate 12 0 ++ List.replicate 12 0).length = 80 := by
    simp [leBytes_length]
  refine ⟨?_, ?_⟩
  · exact compute_crc32
      ((leBytes 4 SERVER_MAGIC ++ leBytes 2 PROTOCOL_VERSION ++ leBytes 2 (80 + 4)) ++
       leBytes 4 0 ++
       (leBytes 4 SERVER_ID ++ (leBytes 4 TYPE_PADDATA ++
        ([0, 2, 3, 1, 0, 0, 0, 0, 0, 0, 5, 1] ++
         leBytes 4 (st.packet_counter + 1) ++ leBytes 2 st.buttons ++ [0, 0] ++
         [st.left_stick_x, st.left_stick_y, st.right_stick_x, st.right_stick_y] ++
         List.replicate 12 0 ++ List.replicate 12 0 ++ leBytes 8 t ++
         List.replicate 12 0 ++ List.replicate 12 0))))
  · unfold build_pad_data
    dsimp only at hpay ⊢
    rw [hpay]
    simp only [Option.bind_eq_bind, Option.some_bind, Option.pure_def]
    rw [if_pos hlen80, hlen80]
    rw [build_header_eq TYPE_PADDATA (80 + 4) SERVER_ID
        (by norm_num [TYPE_PADDATA]) (by norm_num) (by norm_num [SERVER_ID])]
    simp only [Option.some_bind]
    have hre : leBytes 4 SERVER_MAGIC ++ leBytes 2 PROTOCOL_VERSION ++ leBytes 2 (80 + 4) ++
        leBytes 4 0 ++ leBytes 4 SERVER_ID ++ leBytes 4 TYPE_PADDATA ++
        ([0, 2, 3, 1, 0, 0, 0, 0, 0, 0, 5, 1] ++
         leBytes 4 (st.packet_counter + 1) ++ leBytes 2 st.buttons ++ [0, 0] ++
         [st.left_stick_x, st.left_stick_y, st.right_stick_x, st.right_stick_y] ++
         List.replicate 12 0 ++ List.replicate 12 0 ++ leBytes 8 t ++
         List.replicate 12 0 ++ List.replicate 12 0) =
        (leBytes 4 SERVER_MAGIC ++ leBytes 2 PROTOCOL_VERSION ++ leBytes 2 (80 + 4)) ++
        leBytes 4 0 ++
        (leBytes 4 SERVER_ID ++ (leBytes 4 TYPE_PADDATA ++
         ([0, 2, 3, 1, 0, 0, 0, 0, 0, 0, 5, 1] ++
          leBytes 4 (st.packet_counter + 1) ++ leBytes 2 st.buttons ++ [0, 0] ++
          [st.left_stick_x, st.left_stick_y, st.right_stick_x, st.right_stick_y] ++
          List.replicate 12 0 ++ List.replicate 12 0 ++ leBytes 8 t ++
          List.replicate 12 0 ++ List.replicate 12 0))) := by
      simp [List.append_assoc]
    rw [hre]
    rw [packInto_leBytes4
      (leBytes 4 SERVER_MAGIC ++ leBytes 2 PROTOCOL_VERSION ++ leBytes 2 (80 + 4))
      (leBytes 4 0) _ 8 _ (by simp [leBytes_length]) (leBytes_length 4 0)]

/-- Claim C5 (amended): on each snapshot build the packet counter
increments by exactly one — strictly monotonically — with no 32-bit
wraparound: while the incremented counter still fits in 32 bits the build
succeeds and the encoded 4-byte counter field (message bytes 32..35)
carries the counter, whose value equals the counter mod 2^32; once the
incremented counter reaches 2^32 the build fails (`struct.error`) instead
of wrapping. -/
theorem c5_packet_counter (st : ControllerState) (t : Nat) :
    (st.buttons < 2 ^ 16 → st.left_stick_x < 256 → st.left_stick_y < 256 →
     st.right_stick_x < 256 → st.right_stick_y < 256 →
     st.packet_counter + 1 < 2 ^ 32 → t < 2 ^ 64 →
     ∃ (msg : List Nat) (st2 : ControllerState),
       build_pad_data st t = some (msg, st2) ∧
       st2.packet_counter = st.packet_counter + 1 ∧
       st.packet_counter < st2.packet_counter ∧
       (msg.drop 32).take 4 = leBytes 4 st2.packet_counter ∧
       leValue ((msg.drop 32).take 4) = st2.packet_counter % 2 ^ 32) ∧
    (2 ^ 32 ≤ st.packet_counter + 1 → build_pad_data st t = none) := by
  constructor
  · intro hb hlx hly hrx hry hc ht
    obtain ⟨crc, hmsg⟩ := build_pad_data_eq st t hb hlx hly hrx hry hc ht
    have hshape :
        (leBytes 4 SERVER_MAGIC ++ leBytes 2 PROTOCOL_VERSION ++ leBytes 2 (80 + 4)) ++
          leBytes 4 crc ++
          (leBytes 4 SERVER_ID ++ (leBytes 4 TYPE_PADDATA ++
           ([0, 2, 3, 1, 0, 0, 0, 0, 0, 0, 5, 1] ++
            leBytes 4 (st.packet_counter + 1) ++ leBytes 2 st.buttons ++ [0, 0] ++
            [st.left_stick_x, st.left_stick_y, st.right_stick_x, st.right_stick_y] ++
            List.replicate 12 0 ++ List.replicate 12 0 ++ leBytes 8 t ++
            List.replicate 12 0 ++ List.replicate 12 0))) =
        (leBytes 4 SERVER_MAGIC ++ leBytes 2 PROTOCOL_VERSION ++ leBytes 2 (80 + 4) ++
         leBytes 4 crc ++ leBytes 4 SERVER_ID ++ leBytes 4 TYPE_PADDATA ++
         [0, 2, 3, 1, 0, 0, 0, 0, 0, 0, 5, 1]) ++
        (leBytes 4 (st.packet_counter + 1) ++
         (leBytes 2 st.buttons ++ ([0, 0] ++
          ([st.left_stick_x, st.left_stick_y, st.right_stick_x, st.right_stick_y] ++
           (List.replicate 12 0 ++ (List.replicate 12 0 ++ (leBytes 8 t ++
            (List.replicate 12 0 ++ List.replicate 12 0)))))))) := by
      simp [List.append_assoc]
    have hfield :
        ((((leBytes 4 SERVER_MAGIC ++ leBytes 2 PROTOCOL_VERSION ++ leBytes 2 (80 + 4) ++
            leBytes 4 crc ++ leBytes 4 SERVER_ID ++ leBytes 4 TYPE_PADDATA ++
            [0, 2, 3, 1, 0, 0, 0, 0, 0, 0, 5, 1]) ++
           (leBytes 4 (st.packet_counter + 1) ++
            (leBytes 2 st.buttons ++ ([0, 0] ++
             ([st.left_stick_x, st.left_stick_y, st.right_stick_x, st.right_stick_y] ++
              (List.replicate 12 0 ++ (List.replicate 12 0 ++ (leBytes 8 t ++
               (List.replicate 12 0 ++ List.replicate 12 0))))))))).drop 32).take 4) =
          leBytes 4 (st.packet_counter + 1) := by
      rw [List.drop_left' (by simp [leBytes_length])]
      exact List.take_left' (leBytes_length 4 (st.packet_counter + 1))
    refine ⟨_, _, hmsg, rfl, Nat.lt_succ_self _, ?_, ?_⟩
    · rw [hshape, hfield]
    · rw [hshape, hfield, leValue_leBytes]
  · intro h
    have hcond : ¬(st.packet_counter + 1 < 2 ^ (8 * 4)) := by
      rw [show (2 : Nat) ^ (8 * 4) = 2 ^ 32 by norm_num]
      exact Nat.not_lt.mpr h
    have hnone : packUint 4 (st.packet_counter + 1) = none := by
      unfold packUint
      rw [if_neg hcond]
    have hpay : build_pad_data_payload
        { st with packet_counter := st.packet_counter + 1 } t = none := by
      unfold build_pad_data_payload
      rw [show build_port_info = some [0, 2, 3, 1, 0, 0, 0, 0, 0, 0, 5, 1] from rfl]
      simp only [Option.bind_eq_bind, Option.some_bind]
      rw [hnone]
      rfl
    unfold build_pad_data
    dsimp only
    rw [hpay]
    rfl

/-- Claim C5 counterexample: at the concrete valid 32-bit counter value
`2^32 - 1`, building a snapshot fails (`struct.error` from
`struct.pack('<I', ...)` on the incremented counter) instead of wrapping
the counter modulo 2^32 — so building a snapshot does not always
succeed. -/
theorem c5_counterexample :
    build_pad_data { packet_counter := 4294967295 } 0 = none := by
  rfl

/-- Claim C5 witness: the amended statement at the default controller
state and timestamp 0. -/
theorem c5_witness :
    ∃ (msg : List Nat) (st2 : ControllerState),
      build_pad_data ({} : ControllerState) 0 = some (msg, st2) ∧
      st2.packet_counter = ({} : ControllerState).packet_counter + 1 ∧
      ({} : ControllerState).packet_counter < st2.packet_counter ∧
      (msg.drop 32).take 4 = leBytes 4 st2.packet_counter ∧
      leValue ((msg.drop 32).take 4) = st2.packet_counter % 2 ^ 32 :=
  (c5_packet_counter {} 0).1 (by decide) (by decide) (by decide) (by decide)
    (by decide) (by decide) (by decide)

/-! ## Address map (`memory_reader.py`, lines 47-88) -/

def UNIT_BASE_ADDR : Nat := 0x01047400
def UNIT_OFFSET : Nat := 0x200

/-- `OFFSETS`: named field offsets relative to a unit slot base. -/
def OFFSETS : List (String × Nat) :=
  [("brave", 0x7A), ("faith", 0x7C), ("hp", 0x80), ("mp", 0x84),
   ("attack_power", 0x88), ("move_count", 0x91), ("max_moves", 0x92),
   ("status_shield_1", 0xB2), ("status_shield_2", 0xB4), ("max_hp", 0xCC),
   ("max_mp", 0xD0), ("speed", 0xD2), ("attack", 0xD6), ("attack2", 0xD8),
   ("skill_poaching", 0xEA), ("skill_xp_hp_move", 0xEC), ("skill_fly", 0xEE),
   ("magic_ready", 0x1DD)]

/-- `UNIT_ADDRESSES[unit_id][name]` as generated by the module-level loop:
`UNIT_BASE_ADDR + (unit_id - 1) * UNIT_OFFSET + offset` for
`unit_id = i + 1`, `i in range(5)`. -/
def unit_address (unit_id off : Nat) : Nat :=
  UNIT_BASE_ADDR + (unit_id - 1) * UNIT_OFFSET + off

/-- `RAMZA_ADDRESSES`: singleton addresses outside the slot table. -/
def RAMZA_JOB_ID_ADDR : Nat := 0x0104C4BA
def RAMZA_ABILITY2_ID_ADDR : Nat := 0x0104C4BF

/-- Claim C7: for every slot index `i` in 0..4 and every named field, the
address map computes `baseAddress + i*slotStride + fieldOffset`; for slot 3
(zero-indexed 2) the HP address is `base + 2*stride + hpOffset`; and the
address sets of distinct slots are pairwise disjoint. -/
theorem c7_address_map :
    (∀ i : Fin 5, ∀ p ∈ OFFSETS,
      unit_address (i.val + 1) p.2 = UNIT_BASE_ADDR + i.val * UNIT_OFFSET + p.2) ∧
    unit_address 3 0x80 = UNIT_BASE_ADDR + 2 * UNIT_OFFSET + 0x80 ∧
    (∀ i j : Fin 5, i ≠ j → ∀ p ∈ OFFSETS, ∀ q ∈ OFFSETS,
      unit_address (i.val + 1) p.2 ≠ unit_address (j.val + 1) q.2) := by
  refine ⟨?_, by decide, ?_⟩
  · intro i p _
    simp [unit_address]
  · decide

/-- Claim C7 witness: a concrete instance of each hypothesis-guarded part —
slot 1's magic-ready address differs from slot 2's brave address. -/
theorem c7_witness :
    unit_address 1 0x1DD ≠ unit_address 2 0x7A :=
  c7_address_map.2.2 0 1 (by decide) ("magic_ready", 0x1DD) (by decide)
    ("brave", 0x7A) (by decide)

/-! ## GDB response framing (`memory_reader.py`, lines 163-199)

`GDBMemoryReader._send_packet` sends `$<command>#<checksum>` and parses
the accumulated response bytes: it decodes them as ASCII with
`errors='ignore'` (bytes ≥ 128 are dropped), and if both `'$'` and `'#'`
occur in the decoded string it returns the slice between the character
after the first `'$'` (`index`) and the last `'#'` (`rindex`); otherwise
it returns the decoded string itself.  `None` is produced only by the
transport (no socket, not connected, timeout, send error), never by this
parsing step. -/

/-- `bytes.decode('ascii', errors='ignore')`. -/
def ascii_ignore (bs : List Nat) : List Char :=
  (bs.filter (fun b => b < 128)).map Char.ofNat

/-- `str.index(c)`: index of the first occurrence (callers guard
membership; on absence this returns the length, which is never used). -/
def str_index (c : Char) : List Char → Nat
  | [] => 0
  | x :: xs => if x = c then 0 else str_index c xs + 1

/-- `str.rindex(c)`: index of the last occurrence, via the first
occurrence in the reversed string. -/
def str_rindex (c : Char) (s : List Char) : Nat :=
  s.length - 1 - str_index c s.reverse

/-- The response-parsing step of `_send_packet` (lines 186-192), the
spec's `decodeDebugResponse`: `resp_str[resp_str.index('$') + 1 :
resp_str.rindex('#')]` when both delimiters occur, else `resp_str`
itself.  The `Option` mirrors the `Optional[str]` return type of
`_send_packet`; parsing itself never produces `none`. -/
def parse_gdb_payload (s : List Char) : Option (List Char) :=
  if '$' ∈ s ∧ '#' ∈ s then
    some ((s.drop (str_index '$' s + 1)).take
          (str_rindex '#' s - (str_index '$' s + 1)))
  else some s

/-- `decodeDebugResponse` on raw response bytes. -/
def decode_debug_response (bs : List Nat) : Option (List Char) :=
  parse_gdb_payload (ascii_ignore bs)

theorem str_index_append_cons (c : Char) (a r : List Char) (ha : c ∉ a) :
    str_index c (a ++ c :: r) = a.length := by
  induction a with
  | nil => simp [str_index]
  | cons x xs ih =>
    have hx : ¬(x = c) := fun h => ha (h ▸ List.mem_cons_self x xs)
    simp only [List.cons_append, str_index, if_neg hx, List.length_cons]
    exact congrArg (fun n => n + 1) (ih (fun h => ha (List.mem_cons_of_mem x h)))

/-- Claim C2 (amended): when the decoded response splits as
`a ++ '$' :: (m ++ '#' :: b)` with no `'$'` before the delimiter and no
`'#'` after it, the parser returns exactly the payload `m` between the
first `'$'` and the last `'#'`; and when the two delimiters are not both
present it returns the whole decoded string (not `none` — `none` arises
only from transport failures). -/
theorem c2_debug_response (a m b : List Char) (ha : '$' ∉ a) (hb : '#' ∉ b) :
    parse_gdb_payload (a ++ '$' :: (m ++ '#' :: b)) = some m ∧
    (∀ s : List Char, ¬('$' ∈ s ∧ '#' ∈ s) → parse_gdb_payload s = some s) := by
  constructor
  · have hmem : '$' ∈ a ++ '$' :: (m ++ '#' :: b) :=
      List.mem_append_right a (List.mem_cons_self _ _)
    have hmem2 : '#' ∈ a ++ '$' :: (m ++ '#' :: b) := by
      refine List.mem_append_right a (List.mem_cons_of_mem _ ?_)
      exact List.mem_append_right m (List.mem_cons_self _ _)
    have hidx : str_index '$' (a ++ '$' :: (m ++ '#' :: b)) = a.length :=
      str_index_append_cons '$' a _ ha
    have hrev : (a ++ '$' :: (m ++ '#' :: b)).reverse =
        b.reverse ++ '#' :: (m.reverse ++ '$' :: a.reverse) := by
      simp [List.reverse_append]
    have hridx : str_rindex '#' (a ++ '$' :: (m ++ '#' :: b)) =
        a.length + 1 + m.length := by
      unfold str_rindex
      rw [hrev, str_index_append_cons '#' b.reverse _
          (fun h => hb (List.mem_reverse.mp h))]
      simp [List.length_append]
      omega
    unfold parse_gdb_payload
    rw [if_pos ⟨hmem, hmem2⟩, hidx, hridx]
    have hdrop : (a ++ '$' :: (m ++ '#' :: b)).drop (a.length + 1) =
        m ++ '#' :: b := by
      have : a ++ '$' :: (m ++ '#' :: b) = (a ++ ['$']) ++ (m ++ '#' :: b) := by
        simp
      rw [this]
      exact List.drop_left' (by simp)
    rw [hdrop]
    have hsub : a.length + 1 + m.length - (a.length + 1) = m.length := by omega
    rw [hsub]
    rw [List.take_left' rfl]
  · intro s hs
    unfold parse_gdb_payload
    rw [if_neg hs]

/-- Claim C2 witness: the spec's example — response bytes `b"+$1a2b#3c"`
decode to payload `"1a2b"`. -/
theorem c2_witness :
    parse_gdb_payload ['+', '$', '1', 'a', '2', 'b', '#', '3', 'c'] =
      some ['1', 'a', '2', 'b'] :=
  (c2_debug_response ['+'] ['1', 'a', '2', 'b'] ['3', 'c']
    (by decide) (by decide)).1

/-- Claim C2 counterexample: the response `b"OK"` contains neither
delimiter, yet the parser returns the raw string `"OK"`, not `none` as
the claim states. -/
theorem c2_counterexample :
    decode_debug_response [0x4F, 0x4B] = some ['O', 'K'] ∧
    decode_debug_response [0x4F, 0x4B] ≠ none := by
  refine ⟨by decide, ?_⟩
  intro h
  rw [show decode_debug_response [0x4F, 0x4B] = some ['O', 'K'] from by decide] at h
  exact Option.noConfusion h

/-! ## Memory reads (`memory_reader.py`, lines 201-229) -/

/-- One hexadecimal digit, as accepted by `bytes.fromhex`. -/
def hexDigit (c : Char) : Option Nat :=
  if '0' ≤ c ∧ c ≤ '9' then some (c.toNat - 48)
  else if 'a' ≤ c ∧ c ≤ 'f' then some (c.toNat - 87)
  else if 'A' ≤ c ∧ c ≤ 'F' then some (c.toNat - 55)
  else none

/-- `bytes.fromhex`: two hex digits per byte; `none` models the
`ValueError` raised on a non-digit or an odd digit count. -/
def fromhex : List Char → Option (List Nat)
  | [] => some []
  | [_] => none
  | c1 :: c2 :: rest => do
    let hi ← hexDigit c1
    let lo ← hexDigit c2
    let bs ← fromhex rest
    pure ((hi * 16 + lo) :: bs)

/-- `GDBMemoryReader.read_memory(address, size)`, abstracted over the
transport: `response` is the `Optional[str]` result of
`_send_packet(f"m{address:x},{size}")`, which is `None` exactly when the
connection is absent, the receive times out, or the socket raises.  The
body then requires a truthy (non-empty) response different from the error
token `"E00"` with at least `size*2` characters, hex-decodes the first
`size*2` characters (a `ValueError` is caught and yields `None`), and
interprets the decoded bytes as a little-endian integer. -/
def read_memory (response : Option (List Char)) (size : Nat) : Option Nat :=
  match response with
  | none => none
  | some r =>
    if r ≠ [] ∧ r ≠ ['E', '0', '0'] ∧ size * 2 ≤ r.length then
      match fromhex (r.take (size * 2)) with
      | some bs => some (leValue bs)
      | none => none
    else none

/-- Claim C3: `read_memory` returns `none` exactly when the transport
yielded nothing (absent connection, timeout), the response is the error
token `"E00"`, the response is shorter than `size*2` hex characters, or
hex decoding fails; otherwise it returns the little-endian integer of the
first `size*2` hex characters. -/
theorem c3_read_memory (response : Option (List Char)) (size : Nat)
    (hs : 1 ≤ size) :
    (read_memory response size = none ↔
      response = none ∨ ∃ r, response = some r ∧
        (r = ['E', '0', '0'] ∨ r.length < size * 2 ∨
         fromhex (r.take (size * 2)) = none)) ∧
    (∀ r bs, response = some r → r ≠ ['E', '0', '0'] → size * 2 ≤ r.length →
      fromhex (r.take (size * 2)) = some bs →
      read_memory response size = some (leValue bs)) := by
  cases response with
  | none =>
    constructor
    · simp [read_memory]
    · intro r bs h
      exact Option.noConfusion h
  | some r =>
    have hpos : ∀ bs : List Nat, r ≠ ['E', '0', '0'] → size * 2 ≤ r.length →
        fromhex (r.take (size * 2)) = some bs →
        read_memory (some r) size = some (leValue bs) := by
      intro bs hE hlen hfh
      have hne : r ≠ [] := by
        intro h
        subst h
        simp at hlen
        omega
      simp only [read_memory]
      rw [if_pos ⟨hne, hE, hlen⟩, hfh]
    constructor
    · constructor
      · intro hnone
        by_cases hE : r = ['E', '0', '0']
        · exact Or.inr ⟨r, rfl, Or.inl hE⟩
        by_cases hlen : r.length < size * 2
        · exact Or.inr ⟨r, rfl, Or.inr (Or.inl hlen)⟩
        refine Or.inr ⟨r, rfl, Or.inr (Or.inr ?_)⟩
        cases hfh : fromhex (r.take (size * 2)) with
        | none => rfl
        | some bs =>
          rw [hpos bs hE (Nat.not_lt.mp hlen) hfh] at hnone
          exact Option.noConfusion hnone
      · rintro (h | ⟨r', hr', hcond⟩)
        · exact Option.noConfusion h
        · obtain rfl : r = r' := Option.some.inj hr'
          simp only [read_memory]
          rcases hcond with hE | hlen | hfh
          · rw [if_neg (fun hc => hc.2.1 hE)]
          · rw [if_neg (fun hc => Nat.not_lt.mpr hc.2.2 hlen)]
          · by_cases hc : r ≠ [] ∧ r ≠ ['E', '0', '0'] ∧ size * 2 ≤ r.length
            · rw [if_pos hc, hfh]
            · rw [if_neg hc]
    · intro r' bs hr' hE hlen hfh
      obtain rfl : r = r' := Option.some.inj hr'
      exact hpos bs hE hlen hfh

/-- Claim C3 witness: the spec's example — a peer responding `"9600"` to
a 2-byte read yields `0x0096 = 150` (little-endian decode). -/
theorem c3_witness :
    read_memory (some ['9', '6', '0', '0']) 2 = some 150 :=
  (c3_read_memory (some ['9', '6', '0', '0']) 2 (by norm_num)).2
    ['9', '6', '0', '0'] [0x96, 0x00] rfl (by decide) (by decide) (by decide)

/-! ## Unit stats (`memory_reader.py`, lines 10-36 and 231-338) -/

/-- The `UnitStats` dataclass with its zero/false defaults. -/
structure UnitStats where
  unit_id : Nat
  hp : Nat := 0
  max_hp : Nat := 0
  mp : Nat := 0
  max_mp : Nat := 0
  brave : Nat := 0
  faith : Nat := 0
  speed : Nat := 0
  attack : Nat := 0
  attack2 : Nat := 0
  move_count : Nat := 0
  max_moves : Nat := 0
  status_shield_1 : Nat := 0
  status_shield_2 : Nat := 0
  magic_ready : Bool := false
  job_id : Nat := 0
  ability2_id : Nat := 0
  skill_poaching : Bool := false
  skill_xp_hp_move : Bool := false
  skill_fly : Bool := false
deriving DecidableEq

/-- One guarded field read of `read_unit_stats`: look the name up in the
address map (`if "name" in addrs` — always present for the names used)
and call `read_memory` on the resolved address.  `readMem` abstracts
`self.read_memory`. -/
def field_read (readMem : Nat → Nat → Option Nat) (unit_id : Nat)
    (name : String) (width : Nat) : Option Nat :=
  match List.lookup name OFFSETS with
  | some off => readMem (unit_address unit_id off) width
  | none => none

/-- The `if val is not None: stats.f = g(val)` pattern of
`read_unit_stats`: a failed read leaves the field at its default. -/
def field_val {α : Type} (readMem : Nat → Nat → Option Nat) (unit_id : Nat)
    (name : String) (width : Nat) (f : Nat → α) (d : α) : α :=
  match field_read readMem unit_id name width with
  | some v => f v
  | none => d

/-- `GDBMemoryReader.read_unit_stats(unit_id)`: `none` for a slot id
outside the address map's keys 1..5; otherwise a `UnitStats` whose fields
are each set from an independent `read_memory` call when it succeeds and
left at the dataclass default when it fails.  The source assigns the
fields one at a time to a fresh `UnitStats`; as the reads are independent
oracle calls this equals building the record field by field, in the same
order and with the same widths and masks (`& 0xFFFF` on hp/mp/max_hp/
max_mp, `== 1` for magic_ready, `!= 0` for the skill flags, and the
Ramza-only singleton reads for unit 1). -/
def read_unit_stats (readMem : Nat → Nat → Option Nat) (unit_id : Nat) :
    Option UnitStats :=
  if unit_id < 1 ∨ 5 < unit_id then none
  else
    some {
      unit_id := unit_id
      hp := field_val readMem unit_id "hp" 2 (fun v => Nat.land v 0xFFFF) 0
      mp := field_val readMem unit_id "mp" 2 (fun v => Nat.land v 0xFFFF) 0
      max_hp := field_val readMem unit_id "max_hp" 2 (fun v => Nat.land v 0xFFFF) 0
      max_mp := field_val readMem unit_id "max_mp" 2 (fun v => Nat.land v 0xFFFF) 0
      brave := field_val readMem unit_id "brave" 1 id 0
      faith := field_val readMem unit_id "faith" 1 id 0
      speed := field_val readMem unit_id "speed" 1 id 0
      attack := field_val readMem unit_id "attack" 2 id 0
      attack2 := field_val readMem unit_id "attack2" 2 id 0
      move_count := field_val readMem unit_id "move_count" 1 id 0
      max_moves := field_val readMem unit_id "max_moves" 2 id 0
      status_shield_1 := field_val readMem unit_id "status_shield_1" 2 id 0
      status_shield_2 := field_val readMem unit_id "status_shield_2" 2 id 0
      magic_ready := field_val readMem unit_id "magic_ready" 1
        (fun v => decide (v = 1)) false
      job_id := if unit_id = 1 then
          (match readMem RAMZA_JOB_ID_ADDR 1 with | some v => v | none => 0)
        else 0
      ability2_id := if unit_id = 1 then
          (match readMem RAMZA_ABILITY2_ID_ADDR 1 with | some v => v | none => 0)
        else 0
      skill_poaching := field_val readMem unit_id "skill_poaching" 2
        (fun v => decide (v ≠ 0)) false
      skill_xp_hp_move := field_val readMem unit_id "skill_xp_hp_move" 2
        (fun v => decide (v ≠ 0)) false
      skill_fly := field_val readMem unit_id "skill_fly" 2
        (fun v => decide (v ≠ 0)) false
    }

/-- Claim C8: for valid slot ids 1..5 `read_unit_stats` always returns
`some` — one oracle read per mapped field, with every field whose own
read failed left at its zero/false default instead of aborting the
structure — and for a slot id outside 1..5 it returns `none`. -/
theorem c8_read_unit_stats (readMem : Nat → Nat → Option Nat) (unit_id : Nat) :
    (1 ≤ unit_id → unit_id ≤ 5 →
      ∃ s : UnitStats, read_unit_stats readMem unit_id = some s ∧
        s.unit_id = unit_id ∧
        (field_read readMem unit_id "hp" 2 = none → s.hp = 0) ∧
        (field_read readMem unit_id "mp" 2 = none → s.mp = 0) ∧
        (field_read readMem unit_id "max_hp" 2 = none → s.max_hp = 0) ∧
        (field_read readMem unit_id "max_mp" 2 = none → s.max_mp = 0) ∧
        (field_read readMem unit_id "brave" 1 = none → s.brave = 0) ∧
        (field_read readMem unit_id "faith" 1 = none → s.faith = 0) ∧
        (field_read readMem unit_id "speed" 1 = none → s.speed = 0) ∧
        (field_read readMem unit_id "attack" 2 = none → s.attack = 0) ∧
        (field_read readMem unit_id "attack2" 2 = none → s.attack2 = 0) ∧
        (field_read readMem unit_id "move_count" 1 = none → s.move_count = 0) ∧
        (field_read readMem unit_id "max_moves" 2 = none → s.max_moves = 0) ∧
        (field_read readMem unit_id "status_shield_1" 2 = none → s.status_shield_1 = 0) ∧
        (field_read readMem unit_id "status_shield_2" 2 = none → s.status_shield_2 = 0) ∧
        (field_read readMem unit_id "magic_ready" 1 = none → s.magic_ready = false) ∧
        (field_read readMem unit_id "skill_poaching" 2 = none → s.skill_poaching = false) ∧
        (field_read readMem unit_id "skill_xp_hp_move" 2 = none → s.skill_xp_hp_move = false) ∧
        (field_read readMem unit_id "skill_fly" 2 = none → s.skill_fly = false) ∧
        (unit_id = 1 → readMem RAMZA_JOB_ID_ADDR 1 = none → s.job_id = 0) ∧
        (unit_id ≠ 1 → s.job_id = 0) ∧
        (unit_id = 1 → readMem RAMZA_ABILITY2_ID_ADDR 1 = none → s.ability2_id = 0) ∧
        (unit_id ≠ 1 → s.ability2_id = 0)) ∧
    (¬(1 ≤ unit_id ∧ unit_id ≤ 5) → read_unit_stats readMem unit_id = none) := by
  constructor
  · intro h1 h5
    rw [read_unit_stats, if_neg (by omega)]
    refine ⟨_, rfl, rfl, ?_, ?_, ?_, ?_, ?_, ?_, ?_, ?_, ?_, ?_, ?_, ?_, ?_,
      ?_, ?_, ?_, ?_, ?_, ?_, ?_, ?_⟩
    all_goals first
      | (intro he h; simp [field_val, he, h])
      | (intro h; simp [field_val, h])
  · intro h
    rw [read_unit_stats, if_pos (by omega)]

/-- Claim C8 witness: with an oracle on which every read fails, slot 2
still yields a `UnitStats` (with defaulted hp), and slot 0 is invalid. -/
theorem c8_witness :
    (∃ s : UnitStats, read_unit_stats (fun _ _ => none) 2 = some s ∧
      s.unit_id = 2 ∧ s.hp = 0) ∧
    read_unit_stats (fun _ _ => none) 0 = none := by
  constructor
  · obtain ⟨s, hs, hid, hhp, _⟩ :=
      (c8_read_unit_stats (fun _ _ => none) 2).1 (by norm_num) (by norm_num)
    exact ⟨s, hs, hid, hhp rfl⟩
  · exact (c8_read_unit_stats (fun _ _ => none) 0).2 (by omega)

/-! ## Game state (`memory_reader.py`, lines 38-44 and 340-357) -/

/-- The `GameMemoryState` dataclass with its defaults. -/
structure GameMemoryState where
  units : List UnitStats := []
  gil : Nat := 0
  connected : Bool := false
  error : Option String := none
deriving DecidableEq

/-- `GDBMemoryReader.read_game_state()`.  `connected` abstracts
`self._connected`, `connect_ok` the outcome of the single `self.connect()`
call made when not connected, and `readMem` the transport for the unit
reads.  The second component counts how many `connect()` attempts the
call makes.  The loop `for unit_id in range(1, 6)` appends each truthy
(`some`) `read_unit_stats` result, i.e. `filterMap` over `[1,2,3,4,5]`. -/
def read_game_state (connected connect_ok : Bool)
    (readMem : Nat → Nat → Option Nat) : GameMemoryState × Nat :=
  if connected = false then
    if connect_ok = false then
      ({ units := [], gil := 0, connected := false,
         error := some "Failed to connect to GDB stub" }, 1)
    else
      ({ units := (List.range' 1 5).filterMap (read_unit_stats readMem),
         gil := 0, connected := true, error := none }, 1)
  else
    ({ units := (List.range' 1 5).filterMap (read_unit_stats readMem),
       gil := 0, connected := true, error := none }, 0)

theorem read_unit_stats_isSome (readMem : Nat → Nat → Option Nat)
    (unit_id : Nat) (h1 : 1 ≤ unit_id) (h5 : unit_id ≤ 5) :
    (read_unit_stats readMem unit_id).isSome := by
  rw [read_unit_stats, if_neg (by omega)]
  rfl

/-- All five slot reads succeed, so the collected list has five
entries. -/
theorem read_all_units_length (readMem : Nat → Nat → Option Nat) :
    ((List.range' 1 5).filterMap (read_unit_stats readMem)).length = 5 := by
  obtain ⟨s1, h1⟩ := Option.isSome_iff_exists.mp
    (read_unit_stats_isSome readMem 1 (by norm_num) (by norm_num))
  obtain ⟨s2, h2⟩ := Option.isSome_iff_exists.mp
    (read_unit_stats_isSome readMem 2 (by norm_num) (by norm_num))
  obtain ⟨s3, h3⟩ := Option.isSome_iff_exists.mp
    (read_unit_stats_isSome readMem 3 (by norm_num) (by norm_num))
  obtain ⟨s4, h4⟩ := Option.isSome_iff_exists.mp
    (read_unit_stats_isSome readMem 4 (by norm_num) (by norm_num))
  obtain ⟨s5, h5⟩ := Option.isSome_iff_exists.mp
    (read_unit_stats_isSome readMem 5 (by norm_num) (by norm_num))
  rw [show List.range' 1 5 = [1, 2, 3, 4, 5] from rfl]
  simp [List.filterMap_cons, h1, h2, h3, h4, h5]

/-- Claim C9: `read_game_state` never raises (it is a total function of
its inputs); when not connected it makes exactly one reconnect attempt,
and if that fails it returns a state with the connected flag false, an
error set and no units; otherwise (already connected: zero attempts) it
collects the unit stats of all five slots — all of which succeed — and
returns with the connected flag true. -/
theorem c9_read_game_state (connected connect_ok : Bool)
    (readMem : Nat → Nat → Option Nat) :
    ((read_game_state connected connect_ok readMem).2 =
      if connected then 0 else 1) ∧
    (connected = false → connect_ok = false →
      (read_game_state connected connect_ok readMem).1.connected = false ∧
      (read_game_state connected connect_ok readMem).1.units = [] ∧
      (read_game_state connected connect_ok readMem).1.error =
        some "Failed to connect to GDB stub") ∧
    (connected = true ∨ connect_ok = true →
      (read_game_state connected connect_ok readMem).1.connected = true ∧
      (read_game_state connected connect_ok readMem).1.units =
        (List.range' 1 5).filterMap (read_unit_stats readMem) ∧
      (read_game_state connected connect_ok readMem).1.units.length = 5) := by
  cases connected <;> cases connect_ok <;>
    simp [read_game_state, read_all_units_length]

/-- Claim C9 witness: not connected and the single reconnect fails — the
state reports the failure with no units and the connected flag false. -/
theorem c9_witness :
    (read_game_state false false (fun _ _ => none)).1.connected = false ∧
    (read_game_state false false (fun _ _ => none)).1.units = [] ∧
    (read_game_state false false (fun _ _ => none)).1.error =
      some "Failed to connect to GDB stub" :=
  (c9_read_game_state false false (fun _ _ => none)).2.1 rfl rfl

/-! ## Power manager and the missing write (`power_manager.py`,
`memory_reader.py`) -/

/-- The methods actually defined on class `GDBMemoryReader` in
`memory_reader.py`.  There is no `write_memory` among them. -/
def GDBMemoryReader_methods : List String :=
  ["__init__", "connect", "disconnect", "_checksum", "_send_packet",
   "read_memory", "read_unit_stats", "read_game_state", "format_for_llm"]

/-- Python attribute lookup for `self.reader.write_memory(...)` in
`PowerManager`: if the class defined the method the call would return its
boolean result (the first arm, unreachable here); since
`GDBMemoryReader_methods` does not contain `"write_memory"`, the lookup
raises `AttributeError`. -/
def call_write_memory (_addr _value _size : Nat) : Except String Bool :=
  if "write_memory" ∈ GDBMemoryReader_methods then Except.ok true
  else Except.error "AttributeError: GDBMemoryReader has no attribute write_memory"

/-- `PowerManager.heal_unit(unit_id, amount)`: `can_power_up` abstracts
`self.enabled and self.reader._connected and self.power_ups_used <
self.max_power_ups_per_battle`, and `readMem` the reader's transport.
After reading current and max HP it computes the new HP (full heal when
`amount is None`, else capped at max) and calls
`self.reader.write_memory(addrs["hp"], new_hp, 2)`; the increment of
`power_ups_used` on success is omitted (the counter is already abstracted
into `can_power_up`). -/
def heal_unit (can_power_up : Bool) (readMem : Nat → Nat → Option Nat)
    (unit_id : Nat) (amount : Option Nat) : Except String Bool :=
  if can_power_up = false then Except.ok false
  else if unit_id < 1 ∨ 5 < unit_id then Except.ok false
  else
    match readMem (unit_address unit_id 0x80) 2,
          readMem (unit_address unit_id 0xCC) 2 with
    | some current_hp, some max_hp =>
      let new_hp := match amount with
        | none => max_hp
        | some a => min (current_hp + a) max_hp
      match call_write_memory (unit_address unit_id 0x80) new_hp 2 with
      | Except.ok true => Except.ok true
      | Except.ok false => Except.ok false
      | Except.error e => Except.error e
    | _, _ => Except.ok false

/-- Claim C4: the class defines no `write_memory` method, so a heal on a
connected reader with successful HP reads raises `AttributeError` instead
of failing cleanly with `False`. -/
theorem c4_write_memory_missing :
    "write_memory" ∉ GDBMemoryReader_methods ∧
    heal_unit true (fun _ _ => some 10) 1 none =
      Except.error "AttributeError: GDBMemoryReader has no attribute write_memory" :=
  ⟨by decide, rfl⟩
